import Mathlib

/-!
Shallow embedding of the geofence-evaluation and location-analytics engine
of the repository (src/lib/geofence.ts and src/app/api/location/route.ts).

Modelling conventions:
* Timestamps are `Int` milliseconds since the epoch.  The TypeScript code
  stores ISO strings and converts with `new Date(s).getTime()`; the duration
  arithmetic only ever sees the millisecond values, so we carry those
  directly.
* Coordinates and distances are `Rat`.  The geometric containment test
  (`isLocationInsideGeofence`: haversine / ray casting over IEEE doubles)
  and the haversine `calculateDistance` of the analytics route use
  transcendental floating point; the state-machine and analytics claims below
  quantify over their outcomes, so both are passed in as function parameters
  (`inside`, `dist`) rather than re-implemented.
* The wall clock read by `isWithinWorkingHours` (`new Date()`, day-of-week
  string, "HH:MM" time string) is passed in explicitly as a `Clock`.
* The `Map` of user id to status is an association list; `JS Map.get/set`
  become `mapGet`/`mapSet` (set replaces an existing key in place, otherwise
  appends, matching JS insertion-order semantics).
* Event `id` (random), `metadata.geofenceName`/`geofenceType` (echoes of the
  zone record) and `metadata.dwellTime` (a copy of `duration`) are not
  modelled; they carry no logic.
-/

namespace GeoTrack

/-- The fields of `LocationData` read by the engine: latitude, longitude,
accuracy and the timestamp (in ms, see module comment). -/
structure LocationData where
  latitude : Rat
  longitude : Rat
  accuracy : Rat
  timestamp : Int
  deriving Repr, DecidableEq

/-- One weekday row of `GeofenceWorkingHours.schedule`:
`{ start: string; end: string; active: boolean }`. -/
structure DaySchedule where
  start : String
  «end» : String
  active : Bool
  deriving Repr, DecidableEq

/-- `GeofenceWorkingHours`: an `enabled` flag and a day-keyed schedule object
(modelled as an association list keyed by the day string, e.g. "mon"). -/
structure GeofenceWorkingHours where
  enabled : Bool
  schedule : List (String × DaySchedule)
  deriving Repr, DecidableEq

/-- The fields of `Geofence` the presence tracker reads.  The geometry
(`shape`, `coordinates`, `radius`) feeds only `isLocationInsideGeofence`,
which is abstracted as the `inside` parameter (see module comment). -/
structure Geofence where
  id : String
  isActive : Bool
  workingHours : Option GeofenceWorkingHours
  deriving Repr, DecidableEq

/-- `GeofenceEventType`: ENTER / EXIT / DWELL. -/
inductive GeofenceEventType where
  | enter
  | exit
  | dwell
  deriving Repr, DecidableEq

/-- One element of `GeofenceStatus.currentGeofences`. -/
structure CurrentGeofence where
  geofenceId : String
  entryTime : Int
  isAuthorized : Bool
  deriving Repr, DecidableEq

/-- `GeofenceStatus.lastGeofenceExit`. -/
structure LastExit where
  geofenceId : String
  exitTime : Int
  duration : Int
  deriving Repr, DecidableEq

/-- Per-user presence state (`GeofenceStatus`). -/
structure GeofenceStatus where
  userId : String
  currentGeofences : List CurrentGeofence
  lastGeofenceExit : Option LastExit
  deriving Repr, DecidableEq

/-- `GeofenceEvent` as built by `checkGeofenceEntry` (`duration` is present
only on EXIT events; non-semantic fields are omitted, see module comment). -/
structure GeofenceEvent where
  userId : String
  geofenceId : String
  eventType : GeofenceEventType
  timestamp : Int
  location : Rat × Rat × Rat
  duration : Option Int
  isWorkingHours : Bool
  deriving Repr, DecidableEq

/-- The wall-clock snapshot `isWithinWorkingHours` takes from `new Date()`:
the lowercase short weekday ("mon", …) and the "HH:MM" time string. -/
structure Clock where
  dayOfWeek : String
  currentTime : String
  deriving Repr, DecidableEq

/-- JS `<` on strings: lexicographic over UTF-16 code units (identical to
lexicographic `Char` order for the BMP strings used here). -/
def jsLtChars : List Char → List Char → Bool
  | [], [] => false
  | [], _ :: _ => true
  | _ :: _, [] => false
  | a :: as, b :: bs => if a < b then true else if b < a then false else jsLtChars as bs

/-- JS `a <= b` on strings, i.e. `!(b < a)`. -/
def jsStrLe (a b : String) : Bool := !(jsLtChars b.data a.data)

/-- JS object indexing `schedule[day]`: `undefined` when the key is absent. -/
def scheduleGet (sched : List (String × DaySchedule)) (day : String) : Option DaySchedule :=
  (sched.find? (fun p => p.1 == day)).map (fun p => p.2)

/-- `GeofenceService.isWithinWorkingHours`: no enabled working-hours
restriction means `true`; otherwise the current day's row must exist and be
active, and the current "HH:MM" must satisfy
`currentTime >= start && currentTime <= end` (JS string comparison). -/
def isWithinWorkingHours (geofence : Geofence) (now : Clock) : Bool :=
  match geofence.workingHours with
  | none => true
  | some wh =>
    if !wh.enabled then true
    else
      match scheduleGet wh.schedule now.dayOfWeek with
      | none => false
      | some daySchedule =>
        if !daySchedule.active then false
        else jsStrLe daySchedule.start now.currentTime &&
          jsStrLe now.currentTime daySchedule.«end»

/-- `GeofenceService.isAuthorizedAccess`: working hours check; the remaining
authorization logic in the source is a comment followed by `return true`. -/
def isAuthorizedAccess (geofence : Geofence) (now : Clock) : Bool :=
  if !isWithinWorkingHours geofence now then false
  else true

/-- The EXIT duration expression of `checkGeofenceEntry`:
`entryInfo ? Math.floor((exitMs − entryMs)/1000/60) : 0`.
`Int.fdiv … 60000` is `Math.floor` of the millisecond difference divided by
1000 then 60 (floor division towards −∞, as `Math.floor` on the float). -/
def exitDuration (entryInfo : Option CurrentGeofence) (exitTs : Int) : Int :=
  match entryInfo with
  | some e => Int.fdiv (exitTs - e.entryTime) 60000
  | none => 0

/-- `wasInside`: whether the user's status already records the zone,
`currentStatus.currentGeofences.some(g => g.geofenceId === geofence.id)`. -/
def wasIn (st : GeofenceStatus) (id : String) : Bool :=
  st.currentGeofences.any (fun g => g.geofenceId == id)

/-- The ENTER event record built by `checkGeofenceEntry`. -/
def enterEvent (geofence : Geofence) (now : Clock) (location : LocationData)
    (userId : String) : GeofenceEvent :=
  { userId := userId
    geofenceId := geofence.id
    eventType := GeofenceEventType.enter
    timestamp := location.timestamp
    location := (location.latitude, location.longitude, location.accuracy)
    duration := none
    isWorkingHours := isWithinWorkingHours geofence now }

/-- The EXIT event record built by `checkGeofenceEntry`. -/
def exitEvent (geofence : Geofence) (now : Clock) (location : LocationData)
    (userId : String) (duration : Int) : GeofenceEvent :=
  { userId := userId
    geofenceId := geofence.id
    eventType := GeofenceEventType.exit
    timestamp := location.timestamp
    location := (location.latitude, location.longitude, location.accuracy)
    duration := some duration
    isWorkingHours := isWithinWorkingHours geofence now }

/-- The status mutation on entry:
`currentStatus.currentGeofences.push({geofenceId, entryTime, isAuthorized})`. -/
def enterStatus (st : GeofenceStatus) (geofence : Geofence) (now : Clock)
    (location : LocationData) : GeofenceStatus :=
  { st with currentGeofences := st.currentGeofences ++
      [{ geofenceId := geofence.id
         entryTime := location.timestamp
         isAuthorized := isAuthorizedAccess geofence now }] }

/-- The status mutation on exit: filter the zone out of `currentGeofences`
and record `lastGeofenceExit` with the computed duration. -/
def exitStatus (st : GeofenceStatus) (geofence : Geofence)
    (location : LocationData) : GeofenceStatus :=
  { st with
    currentGeofences := st.currentGeofences.filter
      (fun g => !(g.geofenceId == geofence.id))
    lastGeofenceExit := some
      { geofenceId := geofence.id
        exitTime := location.timestamp
        duration := exitDuration
          (st.currentGeofences.find? (fun g => g.geofenceId == geofence.id))
          location.timestamp } }

/-- Prepend a freshly pushed event to a loop result (`events.push(event)`
before processing the remaining zones). -/
def withEvent (e : GeofenceEvent) (r : List GeofenceEvent × GeofenceStatus) :
    List GeofenceEvent × GeofenceStatus :=
  (e :: r.1, r.2)

/-- The `for (const geofence of this.activeGeofences)` loop of
`checkGeofenceEntry`, threading the accumulating event list and the mutable
`currentStatus`.  `inside` stands for `isLocationInsideGeofence`. -/
def processZones (inside : LocationData → Geofence → Bool) (now : Clock)
    (location : LocationData) (userId : String) :
    List Geofence → GeofenceStatus → List GeofenceEvent × GeofenceStatus
  | [], st => ([], st)
  | geofence :: rest, st =>
    if inside location geofence && !(wasIn st geofence.id) then
      withEvent (enterEvent geofence now location userId)
        (processZones inside now location userId rest
          (enterStatus st geofence now location))
    else if !(inside location geofence) && wasIn st geofence.id then
      withEvent (exitEvent geofence now location userId
          (exitDuration
            (st.currentGeofences.find? (fun g => g.geofenceId == geofence.id))
            location.timestamp))
        (processZones inside now location userId rest (exitStatus st geofence location))
    else
      processZones inside now location userId rest st

/-- The per-user status map (`private userStatus: Map<string, GeofenceStatus>`)
as an association list in insertion order. -/
abbrev StatusMap := List (String × GeofenceStatus)

/-- JS `Map.get`: the value bound to the key, `undefined` when absent (keys
are unique, so first match is the match). -/
def mapGet : StatusMap → String → Option GeofenceStatus
  | [], _ => none
  | p :: rest, k => if p.1 == k then some p.2 else mapGet rest k

/-- JS `Map.set`: replace in place when the key exists, append otherwise. -/
def mapSet (m : StatusMap) (k : String) (v : GeofenceStatus) : StatusMap :=
  if m.any (fun p => p.1 == k) then
    m.map (fun p => if p.1 == k then (k, v) else p)
  else
    m ++ [(k, v)]

/-- `GeofenceService.checkGeofenceEntry`: fetch (or lazily create) the user's
status, diff containment of each active zone against it, and store the
updated status.  Returns the emitted events and the updated status map. -/
def checkGeofenceEntry (inside : LocationData → Geofence → Bool) (now : Clock)
    (activeGeofences : List Geofence) (userStatus : StatusMap)
    (location : LocationData) (userId : String) :
    List GeofenceEvent × StatusMap :=
  let currentStatus := (mapGet userStatus userId).getD
    { userId := userId, currentGeofences := [], lastGeofenceExit := none }
  let r := processZones inside now location userId activeGeofences currentStatus
  (r.1, mapSet userStatus userId r.2)

/-- The `userStatus` purge performed by `GeofenceService.deleteGeofence`:
`status.currentGeofences = status.currentGeofences.filter(g => g.geofenceId !== id)`
for every user (the JS `forEach` + `set` on an existing key rewrites each
value in place). -/
def purgeStatus (m : StatusMap) (id : String) : StatusMap :=
  m.map (fun p => (p.1,
    { p.2 with
      currentGeofences := p.2.currentGeofences.filter (fun g => !(g.geofenceId == id)) }))

/-- The in-memory service state: the active-zone cache and the status map. -/
structure ServiceState where
  activeGeofences : List Geofence
  userStatus : StatusMap
  deriving Repr, DecidableEq

/-- The cache/state mutation of `GeofenceService.deleteGeofence` (the
success path after the remote DELETE): evict the zone from the cache and
purge every user's references to it.  No event is produced (the method
returns `void`). -/
def deleteGeofence (s : ServiceState) (id : String) : ServiceState :=
  { activeGeofences := s.activeGeofences.filter (fun g => !(g.id == id))
    userStatus := purgeStatus s.userStatus id }

/-- The cache update of `GeofenceService.updateGeofence` (the success path):
if the id is cached, replace it when the updated zone is active and splice it
out otherwise; if it is not cached, push it only when active. -/
def updateGeofenceCache (gs : List Geofence) (id : String) (updated : Geofence) :
    List Geofence :=
  match gs.findIdx? (fun g => g.id == id) with
  | some i => if updated.isActive then gs.set i updated else gs.eraseIdx i
  | none => if updated.isActive then gs ++ [updated] else gs

/-- `GeofenceService.updateGeofence` as a state transformer: it touches only
the active-zone cache, never `userStatus`. -/
def updateGeofence (s : ServiceState) (id : String) (updated : Geofence) :
    ServiceState :=
  { s with activeGeofences := updateGeofenceCache s.activeGeofences id updated }

/-! ## The location analytics route (src/app/api/location/route.ts) -/

/-- The fields of the statistics object built by the `PATCH` handler that
carry computation (`userId`, `dateRange` echo the request, and
`geofenceEvents`/`attendanceEvents` are the literal 0). -/
structure LocationStats where
  totalDistance : Rat
  totalTime : Rat
  averageSpeed : Rat
  locationsRecorded : Nat
  deriving Repr, DecidableEq

/-- `Math.round(x * 100) / 100`: JS `Math.round` rounds half towards +∞,
i.e. `Math.round(y) = Math.floor(y + 0.5)`. -/
def round2 (x : Rat) : Rat := ((⌊x * 100 + 1/2⌋ : Int) : Rat) / 100

/-- Elapsed time between two fixes as computed by the `PATCH` loop:
`(nextMs − prevMs) / 1000 / 3600` hours. -/
def elapsedHours (prev cur : LocationData) : Rat :=
  ((cur.timestamp - prev.timestamp : Int) : Rat) / 1000 / 3600

/-- The `for (let i = 1; i < userLocations.length; i++)` statistics loop of
the `PATCH` handler, threading `totalDistance`, `totalTime` and the pushed
`speeds` array.  `dist` stands for the route's haversine
`calculateDistance` (kilometres). -/
def statsLoop (dist : LocationData → LocationData → Rat) (prev : LocationData) :
    List LocationData → Rat → Rat → List Rat → Rat × Rat × List Rat
  | [], totalDistance, totalTime, speeds => (totalDistance, totalTime, speeds)
  | cur :: rest, totalDistance, totalTime, speeds =>
    let distance := dist prev cur
    let timeDiff := elapsedHours prev cur
    let speeds' := if timeDiff > 0 then speeds ++ [distance / timeDiff] else speeds
    statsLoop dist cur rest (totalDistance + distance) (totalTime + timeDiff) speeds'

/-- The statistics computation of the `PATCH` handler on the
date-filtered, timestamp-sorted fix list: an all-zero record for an empty
list, otherwise the loop above followed by
`speeds.length > 0 ? speeds.reduce(...)/speeds.length : 0` and 2-decimal
rounding of the three numeric outputs. -/
def computeStats (dist : LocationData → LocationData → Rat)
    (userLocations : List LocationData) : LocationStats :=
  match userLocations with
  | [] =>
    { totalDistance := 0, totalTime := 0, averageSpeed := 0, locationsRecorded := 0 }
  | f :: rest =>
    let r := statsLoop dist f rest 0 0 []
    let averageSpeed := if r.2.2.length > 0 then r.2.2.sum / (r.2.2.length : Rat) else 0
    { totalDistance := round2 r.1
      totalTime := round2 r.2.1
      averageSpeed := round2 averageSpeed
      locationsRecorded := userLocations.length }

/-- The request body of the `POST` handler as far as its validation reads
it: `latitude`/`longitude` are JSON numbers when present, `timestamp` a
string when present (`none` models an absent/undefined field; the JS falsy
values of each type are `0` and `""` — `NaN`, also falsy, has no rational
counterpart and is not modelled). -/
structure LocationUpdateRequest where
  latitude : Option Rat
  longitude : Option Rat
  timestamp : Option String
  deriving Repr, DecidableEq

/-- JS truthiness test `!x` for an optional number field. -/
def falsyNum : Option Rat → Bool
  | none => true
  | some x => x == 0

/-- JS truthiness test `!x` for an optional string field. -/
def falsyStr : Option String → Bool
  | none => true
  | some s => s == ""

/-- The `POST` validation
`if (!body.latitude || !body.longitude || !body.timestamp)`: `true` means
the request is rejected with the 400 "required" error before any record is
created or the geofence check is reached. -/
def postRejects (body : LocationUpdateRequest) : Bool :=
  falsyNum body.latitude || falsyNum body.longitude || falsyStr body.timestamp

/-! ## Specification-side definitions

These restate the spec's words for the refinement-style claims; each is
compared with the corresponding source-derived definition by a theorem. -/

/-- From the spec: a zone imposes no working-hours restriction when it has
no schedule or the schedule is not enabled; otherwise access is authorized
iff the current day-of-week row exists, is marked active, and the current
"HH:MM" lies within [start, end] inclusive on both ends. -/
def authorizedSpec (geofence : Geofence) (now : Clock) : Prop :=
  match geofence.workingHours with
  | none => True
  | some wh =>
    if wh.enabled then
      ∃ ds, scheduleGet wh.schedule now.dayOfWeek = some ds ∧ ds.active = true ∧
        jsStrLe ds.start now.currentTime = true ∧
        jsStrLe now.currentTime ds.«end» = true
    else True

/-- Consecutive pairs of a fix list (the pairs the spec's trajectory walk
visits). -/
def consecPairs : List LocationData → List (LocationData × LocationData)
  | a :: b :: rest => (a, b) :: consecPairs (b :: rest)
  | _ => []

/-- From the spec: the instantaneous speeds collected over exactly those
consecutive pairs whose elapsed time is strictly positive. -/
def instSpeeds (dist : LocationData → LocationData → Rat)
    (fixes : List LocationData) : List Rat :=
  (consecPairs fixes).filterMap (fun p =>
    if elapsedHours p.1 p.2 > 0 then some (dist p.1 p.2 / elapsedHours p.1 p.2) else none)

/-- Arithmetic mean of a list, zero for the empty list (the spec's average
of collected instantaneous speeds, with the code's `length > 0` guard). -/
def meanOrZero (xs : List Rat) : Rat :=
  if xs.length > 0 then xs.sum / (xs.length : Rat) else 0

/-- Total over the consecutive pairs of the per-pair quantity `f` (the
spec's accumulated distance / elapsed time). -/
def pairTotal (f : LocationData → LocationData → Rat)
    (fixes : List LocationData) : Rat :=
  ((consecPairs fixes).map (fun p => f p.1 p.2)).sum

/-- Boolean "no duplicates" over a list of zone ids. -/
def nodupKeys : List String → Bool
  | [] => true
  | x :: xs => !(xs.contains x) && nodupKeys xs

/-- The status maps reachable from the empty map by any interleaving of
`checkGeofenceEntry` calls (any containment oracle, clock, zone cache, fix
and subject) and `deleteGeofence` purges. -/
inductive ReachableStatus : StatusMap → Prop where
  | init : ReachableStatus []
  | check (inside : LocationData → Geofence → Bool) (now : Clock)
      (gs : List Geofence) (loc : LocationData) (uid : String) {m : StatusMap} :
      ReachableStatus m →
      ReachableStatus (checkGeofenceEntry inside now gs m loc uid).2
  | del (id : String) {m : StatusMap} :
      ReachableStatus m → ReachableStatus (purgeStatus m id)

/-! ## Association-list (JS `Map`) lemmas -/

theorem mapGet_mapSet_self (m : StatusMap) (k : String) (v : GeofenceStatus) :
    mapGet (mapSet m k v) k = some v := by
  induction m with
  | nil => simp [mapGet, mapSet]
  | cons p rest ih =>
    by_cases hp : p.1 == k
    · have heq : p.1 = k := by simpa using hp
      simp [mapGet, mapSet, List.any_cons, hp, heq]
    · by_cases ha : rest.any (fun q => q.1 == k)
      · simp only [mapSet, List.any_cons, hp, ha] at ih ⊢
        simpa [mapGet, hp] using ih
      · simp only [mapSet, List.any_cons, hp, ha] at ih ⊢
        simpa [mapGet, hp] using ih

theorem mapGet_purgeStatus (m : StatusMap) (id u : String) :
    mapGet (purgeStatus m id) u = (mapGet m u).map
      (fun st => { st with currentGeofences :=
        st.currentGeofences.filter (fun c => !(c.geofenceId == id)) }) := by
  induction m with
  | nil => rfl
  | cons p rest ih =>
    by_cases hp : p.1 == u
    · simp [purgeStatus, mapGet, hp]
    · simpa [purgeStatus, mapGet, hp] using ih

theorem mem_mapSet {m : StatusMap} {k : String} {v : GeofenceStatus}
    {q : String × GeofenceStatus} (hq : q ∈ mapSet m k v) : q.2 = v ∨ q ∈ m := by
  unfold mapSet at hq
  split at hq
  · rcases List.mem_map.mp hq with ⟨p, hp, he⟩
    by_cases hpk : p.1 == k
    · rw [if_pos hpk] at he
      left
      rw [← he]
    · rw [if_neg hpk] at he
      right
      rw [← he]
      exact hp
  · rcases List.mem_append.mp hq with h | h
    · right
      exact h
    · left
      simp only [List.mem_singleton] at h
      rw [h]

/-! ## C4: working-hours authorization -/

/-- C4: for every zone and evaluation instant, `isAuthorizedAccess` returns
true when the zone has no enabled working-hours restriction; otherwise it is
true iff the schedule row for the current day of week exists and is marked
active and the current "HH:MM" lies within [start, end], inclusive on both
ends (the spec-side reading is `authorizedSpec`). -/
theorem authorization_matches_spec (g : Geofence) (now : Clock) :
    isAuthorizedAccess g now = true ↔ authorizedSpec g now := by
  unfold isAuthorizedAccess authorizedSpec isWithinWorkingHours
  cases g.workingHours with
  | none => simp
  | some wh =>
    cases hen : wh.enabled with
    | false => simp [hen]
    | true =>
      cases hds : scheduleGet wh.schedule now.dayOfWeek with
      | none => simp [hen, hds]
      | some ds =>
        cases hact : ds.active with
        | false => simp [hen, hds, hact]
        | true => simp [hen, hds, hact, Bool.and_eq_true]

/-! ## C8: POST validation (corrected) -/

/-- C8 counterexample: the claim says a fix supplying latitude, longitude
and timestamp is accepted regardless of their values, but a request with
latitude 0 (equator), longitude 1 and a nonempty timestamp — all three
present — is rejected by `if (!body.latitude || ...)`, since JS `!0` is
true. -/
theorem post_rejects_zero_latitude :
    postRejects { latitude := some 0, longitude := some 1,
                  timestamp := some "2024-01-01T00:00:00Z" } = true ∧
    ({ latitude := some 0, longitude := some 1,
       timestamp := some "2024-01-01T00:00:00Z" : LocationUpdateRequest }).latitude ≠ none ∧
    ({ latitude := some 0, longitude := some 1,
       timestamp := some "2024-01-01T00:00:00Z" : LocationUpdateRequest }).longitude ≠ none ∧
    ({ latitude := some 0, longitude := some 1,
       timestamp := some "2024-01-01T00:00:00Z" : LocationUpdateRequest }).timestamp ≠ none := by
  refine ⟨rfl, ?_, ?_, ?_⟩ <;> simp

/-- C8 (amended): a location update is rejected iff its latitude, longitude
or timestamp is missing or JS-falsy — latitude/longitude absent or equal to
0, timestamp absent or the empty string; a request whose three fields are
present and truthy passes validation. -/
theorem post_rejects_iff_falsy (body : LocationUpdateRequest) :
    postRejects body = true ↔
      (body.latitude = none ∨ body.latitude = some 0) ∨
      (body.longitude = none ∨ body.longitude = some 0) ∨
      (body.timestamp = none ∨ body.timestamp = some "") := by
  obtain ⟨la, lo, ts⟩ := body
  cases la <;> cases lo <;> cases ts <;>
    simp [postRejects, falsyNum, falsyStr, beq_iff_eq, or_assoc]

/-! ## Events emitted by the containment diff -/

theorem checkGeofenceEntry_fst (inside : LocationData → Geofence → Bool)
    (now : Clock) (gs : List Geofence) (m : StatusMap) (loc : LocationData)
    (uid : String) :
    (checkGeofenceEntry inside now gs m loc uid).1 =
      (processZones inside now loc uid gs ((mapGet m uid).getD
        { userId := uid, currentGeofences := [], lastGeofenceExit := none })).1 := rfl

theorem checkGeofenceEntry_snd (inside : LocationData → Geofence → Bool)
    (now : Clock) (gs : List Geofence) (m : StatusMap) (loc : LocationData)
    (uid : String) :
    (checkGeofenceEntry inside now gs m loc uid).2 =
      mapSet m uid (processZones inside now loc uid gs ((mapGet m uid).getD
        { userId := uid, currentGeofences := [], lastGeofenceExit := none })).2 := rfl

theorem processZones_event_types (inside : LocationData → Geofence → Bool)
    (now : Clock) (loc : LocationData) (uid : String) :
    ∀ (gs : List Geofence) (st : GeofenceStatus),
      ∀ e ∈ (processZones inside now loc uid gs st).1,
        e.eventType = GeofenceEventType.enter ∨ e.eventType = GeofenceEventType.exit := by
  intro gs
  induction gs with
  | nil =>
    intro st e he
    simp [processZones] at he
  | cons g rest ih =>
    intro st e he
    rw [processZones] at he
    split at he
    · rcases List.mem_cons.mp he with h | h
      · rw [h]
        left
        rfl
      · exact ih _ e h
    · split at he
      · rcases List.mem_cons.mp he with h | h
        · rw [h]
          right
          rfl
        · exact ih _ e h
      · exact ih _ e he

theorem processZones_event_source (inside : LocationData → Geofence → Bool)
    (now : Clock) (loc : LocationData) (uid : String) :
    ∀ (gs : List Geofence) (st : GeofenceStatus),
      ∀ e ∈ (processZones inside now loc uid gs st).1,
        ∃ g ∈ gs, e.geofenceId = g.id := by
  intro gs
  induction gs with
  | nil =>
    intro st e he
    simp [processZones] at he
  | cons g rest ih =>
    intro st e he
    rw [processZones] at he
    split at he
    · rcases List.mem_cons.mp he with h | h
      · exact ⟨g, List.mem_cons_self g rest, by rw [h]; rfl⟩
      · rcases ih _ e h with ⟨g', hg', he'⟩
        exact ⟨g', List.mem_cons_of_mem g hg', he'⟩
    · split at he
      · rcases List.mem_cons.mp he with h | h
        · exact ⟨g, List.mem_cons_self g rest, by rw [h]; rfl⟩
        · rcases ih _ e h with ⟨g', hg', he'⟩
          exact ⟨g', List.mem_cons_of_mem g hg', he'⟩
      · rcases ih _ e he with ⟨g', hg', he'⟩
        exact ⟨g', List.mem_cons_of_mem g hg', he'⟩

/-- C9: the containment diff never emits a DWELL event — every event of
every `checkGeofenceEntry` call has type ENTER or EXIT, for any containment
oracle, clock, zone cache, status map, fix and subject. -/
theorem no_dwell_emitted (inside : LocationData → Geofence → Bool) (now : Clock)
    (gs : List Geofence) (m : StatusMap) (loc : LocationData) (uid : String) :
    ((checkGeofenceEntry inside now gs m loc uid).1.all
      (fun e => !(e.eventType == GeofenceEventType.dwell))) = true := by
  rw [List.all_eq_true]
  intro e he
  rw [checkGeofenceEntry_fst] at he
  rcases processZones_event_types inside now loc uid gs _ e he with h | h <;> simp [h]

theorem check_events_from_cache (inside : LocationData → Geofence → Bool)
    (now : Clock) (gs : List Geofence) (m : StatusMap) (loc : LocationData)
    (uid id : String) (h : (gs.all (fun g => !(g.id == id))) = true) :
    ((checkGeofenceEntry inside now gs m loc uid).1.all
      (fun e => !(e.geofenceId == id))) = true := by
  rw [List.all_eq_true] at h ⊢
  intro e he
  rw [checkGeofenceEntry_fst] at he
  rcases processZones_event_source inside now loc uid gs _ e he with ⟨g, hg, hge⟩
  rw [hge]
  exact h g hg

/-! ## C7: hard deletion -/

/-- C7: deleting a zone evicts it from the active-zone cache (leaving the
other zones), purges every reference to it from every subject's presence
state, leaves entries for other zone ids and each subject's last-exit
record untouched, and emits no event (`deleteGeofence` produces only a new
state — in particular no EXIT: `lastGeofenceExit` is unchanged). -/
theorem delete_purges_without_exit (s : ServiceState) (id u : String) (g : Geofence) :
    ((deleteGeofence s id).activeGeofences.all (fun z => !(z.id == id))) = true
    ∧ (g ∈ (deleteGeofence s id).activeGeofences ↔
        g ∈ s.activeGeofences ∧ ¬(g.id = id))
    ∧ ((deleteGeofence s id).userStatus.all
        (fun p => p.2.currentGeofences.all (fun c => !(c.geofenceId == id)))) = true
    ∧ mapGet (deleteGeofence s id).userStatus u = (mapGet s.userStatus u).map
        (fun st => { st with currentGeofences :=
          st.currentGeofences.filter (fun c => !(c.geofenceId == id)) })
    ∧ ((mapGet (deleteGeofence s id).userStatus u).map (fun st => st.lastGeofenceExit))
        = ((mapGet s.userStatus u).map (fun st => st.lastGeofenceExit)) := by
  refine ⟨?_, ?_, ?_, mapGet_purgeStatus s.userStatus id u, ?_⟩
  · rw [List.all_eq_true]
    intro z hz
    simp only [deleteGeofence] at hz
    have h1 := List.of_mem_filter hz
    simpa using h1
  · simp [deleteGeofence, List.mem_filter]
  · rw [List.all_eq_true]
    intro p hp
    simp only [deleteGeofence, purgeStatus] at hp
    rcases List.mem_map.mp hp with ⟨q, _, he⟩
    rw [← he]
    simp only
    rw [List.all_eq_true]
    intro c hc
    have h1 := List.of_mem_filter hc
    simpa using h1
  · have hdel : (deleteGeofence s id).userStatus = purgeStatus s.userStatus id := rfl
    rw [hdel, mapGet_purgeStatus]
    cases mapGet s.userStatus u <;> rfl

/-! ## C10: deactivating update -/

theorem updateCache_inactive_evicts (id : String) (u : Geofence)
    (hact : u.isActive = false) :
    ∀ gs : List Geofence, gs.countP (fun g => g.id == id) ≤ 1 →
      ((updateGeofenceCache gs id u).all (fun g => !(g.id == id))) = true := by
  intro gs
  induction gs with
  | nil =>
    intro _
    simp [updateGeofenceCache, hact]
  | cons g rest ih =>
    intro hcount
    by_cases hg : g.id == id
    · have h0 : (g :: rest).findIdx? (fun z => z.id == id) = some 0 := by
        simp [List.findIdx?_cons, hg]
      have hrest : rest.countP (fun z => z.id == id) = 0 := by
        rw [List.countP_cons] at hcount
        simp only [hg, if_true] at hcount
        omega
      simp only [updateGeofenceCache, h0, hact, if_false, Bool.false_eq_true,
        List.eraseIdx_cons_zero]
      rw [List.all_eq_true]
      intro z hz
      have := List.countP_eq_zero.mp hrest z hz
      simpa using this
    · cases hfi : rest.findIdx? (fun z => z.id == id) with
      | none =>
        have h0 : (g :: rest).findIdx? (fun z => z.id == id) = none := by
          simp [List.findIdx?_cons, hg, List.findIdx?_succ, hfi]
        simp only [updateGeofenceCache, h0, hact, if_false, Bool.false_eq_true]
        rw [List.all_eq_true]
        intro z hz
        rcases List.mem_cons.mp hz with h | h
        · rw [h]
          simpa using hg
        · have := List.findIdx?_eq_none_iff.mp hfi z h
          simpa using this
      | some j =>
        have h0 : (g :: rest).findIdx? (fun z => z.id == id) = some (j + 1) := by
          simp [List.findIdx?_cons, hg, List.findIdx?_succ, hfi]
        have hcr : rest.countP (fun z => z.id == id) ≤ 1 := by
          rw [List.countP_cons] at hcount
          omega
        have hih := ih hcr
        simp only [updateGeofenceCache, hfi, hact, if_false, Bool.false_eq_true] at hih
        simp only [updateGeofenceCache, h0, hact, if_false, Bool.false_eq_true,
          List.eraseIdx_cons_succ]
        rw [List.all_eq_true]
        intro z hz
        rcases List.mem_cons.mp hz with h | h
        · rw [h]
          simpa using hg
        · exact List.all_eq_true.mp hih z h

/-- C10: updating a zone so it becomes inactive evicts it from the
active-zone cache (assuming the cache holds the id at most once) while —
unlike delete — leaving every subject's presence state untouched, and a
subsequent fix evaluation over the updated cache emits no event (in
particular no EXIT) for that zone, since inactive zones are not iterated. -/
theorem update_inactive_frame (s : ServiceState) (id : String) (updated : Geofence)
    (hact : updated.isActive = false)
    (hcount : s.activeGeofences.countP (fun g => g.id == id) ≤ 1)
    (inside : LocationData → Geofence → Bool) (now : Clock) (m : StatusMap)
    (loc : LocationData) (uid : String) :
    (updateGeofence s id updated).userStatus = s.userStatus
    ∧ ((updateGeofence s id updated).activeGeofences.all
        (fun g => !(g.id == id))) = true
    ∧ ((checkGeofenceEntry inside now (updateGeofence s id updated).activeGeofences
        m loc uid).1.all (fun e => !(e.geofenceId == id))) = true := by
  have hall := updateCache_inactive_evicts id updated hact s.activeGeofences hcount
  exact ⟨rfl, hall, check_events_from_cache inside now _ m loc uid id hall⟩

/-- C10 witness: a concrete cache holding one zone "z1" that a subject
occupies, updated to inactive. -/
theorem update_inactive_frame_witness :
    (updateGeofence ⟨[⟨"z1", true, none⟩], [("u", ⟨"u", [⟨"z1", 0, true⟩], none⟩)]⟩
        "z1" ⟨"z1", false, none⟩).userStatus = [("u", ⟨"u", [⟨"z1", 0, true⟩], none⟩)]
    ∧ ((updateGeofence ⟨[⟨"z1", true, none⟩], [("u", ⟨"u", [⟨"z1", 0, true⟩], none⟩)]⟩
        "z1" ⟨"z1", false, none⟩).activeGeofences.all (fun g => !(g.id == "z1"))) = true
    ∧ ((checkGeofenceEntry (fun _ _ => true) ⟨"mon", "09:00"⟩
        (updateGeofence ⟨[⟨"z1", true, none⟩], [("u", ⟨"u", [⟨"z1", 0, true⟩], none⟩)]⟩
          "z1" ⟨"z1", false, none⟩).activeGeofences
        [("u", ⟨"u", [⟨"z1", 0, true⟩], none⟩)]
        ⟨0, 0, 10, 1000⟩ "u").1.all (fun e => !(e.geofenceId == "z1"))) = true :=
  update_inactive_frame ⟨[⟨"z1", true, none⟩], [("u", ⟨"u", [⟨"z1", 0, true⟩], none⟩)]⟩
    "z1" ⟨"z1", false, none⟩ rfl (by decide) (fun _ _ => true) ⟨"mon", "09:00"⟩
    [("u", ⟨"u", [⟨"z1", 0, true⟩], none⟩)] ⟨0, 0, 10, 1000⟩ "u"

/-! ## Trajectory analytics (C5, C6) -/

theorem statsLoop_spec (dist : LocationData → LocationData → Rat) :
    ∀ (rest : List LocationData) (prev : LocationData) (D T : Rat) (S : List Rat),
      statsLoop dist prev rest D T S =
        (D + pairTotal dist (prev :: rest),
         T + pairTotal elapsedHours (prev :: rest),
         S ++ instSpeeds dist (prev :: rest)) := by
  intro rest
  induction rest with
  | nil =>
    intro prev D T S
    simp [statsLoop, pairTotal, consecPairs, instSpeeds]
  | cons cur rest' ih =>
    intro prev D T S
    by_cases htd : elapsedHours prev cur > 0
    · simp only [statsLoop, htd, if_true, ih]
      simp [pairTotal, consecPairs, instSpeeds, List.filterMap_cons, htd, add_assoc]
    · simp only [statsLoop, htd, if_false, ih]
      simp [pairTotal, consecPairs, instSpeeds, List.filterMap_cons, htd, add_assoc]

theorem round2_zero : round2 0 = 0 := by
  norm_num [round2]

theorem round2_nonneg {x : Rat} (hx : 0 ≤ x) : 0 ≤ round2 x := by
  unfold round2
  apply div_nonneg _ (by norm_num)
  have h1 : (0 : Rat) ≤ x * 100 + 1 / 2 := by linarith
  exact_mod_cast Int.floor_nonneg.mpr h1

theorem computeStats_spec (dist : LocationData → LocationData → Rat)
    (fixes : List LocationData) :
    computeStats dist fixes =
      { totalDistance := round2 (pairTotal dist fixes)
        totalTime := round2 (pairTotal elapsedHours fixes)
        averageSpeed := round2 (meanOrZero (instSpeeds dist fixes))
        locationsRecorded := fixes.length } := by
  cases fixes with
  | nil =>
    simp [computeStats, pairTotal, consecPairs, instSpeeds, meanOrZero, round2_zero]
  | cons f rest =>
    simp only [computeStats, statsLoop_spec dist rest f 0 0 [], zero_add, List.nil_append]
    rfl

/-- C5: the trajectory summary's average speed is the 2-decimal rounding of
the arithmetic mean of the instantaneous speeds collected over exactly the
consecutive pairs with strictly positive elapsed time (not total distance
over total time), and the returned distance and time are the 2-decimal
roundings of the corresponding pair totals. -/
theorem average_speed_is_mean_of_instantaneous
    (dist : LocationData → LocationData → Rat) (fixes : List LocationData) :
    (computeStats dist fixes).averageSpeed = round2 (meanOrZero (instSpeeds dist fixes))
    ∧ (computeStats dist fixes).totalDistance = round2 (pairTotal dist fixes)
    ∧ (computeStats dist fixes).totalTime = round2 (pairTotal elapsedHours fixes) := by
  rw [computeStats_spec]
  exact ⟨rfl, rfl, rfl⟩

/-- C6: summarizing an empty or single-fix list yields zero distance, time
and average speed (not an error), and for every input with a nonnegative
distance function (the haversine is nonnegative) the computed total
distance and average speed are nonnegative. -/
theorem summary_zero_and_nonneg (dist : LocationData → LocationData → Rat)
    (f : LocationData) (fixes : List LocationData)
    (hd : ∀ a b, 0 ≤ dist a b) :
    computeStats dist [] =
      { totalDistance := 0, totalTime := 0, averageSpeed := 0, locationsRecorded := 0 }
    ∧ (computeStats dist [f]).totalDistance = 0
    ∧ (computeStats dist [f]).totalTime = 0
    ∧ (computeStats dist [f]).averageSpeed = 0
    ∧ 0 ≤ (computeStats dist fixes).totalDistance
    ∧ 0 ≤ (computeStats dist fixes).averageSpeed := by
  have hsingle : computeStats dist [f] =
      { totalDistance := 0, totalTime := 0, averageSpeed := 0, locationsRecorded := 1 } := by
    rw [computeStats_spec]
    simp [pairTotal, consecPairs, instSpeeds, meanOrZero, round2_zero]
  have hsp : ∀ x ∈ instSpeeds dist fixes, 0 ≤ x := by
    intro x hx
    rcases List.mem_filterMap.mp hx with ⟨p, _, hfp⟩
    by_cases htd : elapsedHours p.1 p.2 > 0
    · rw [if_pos htd] at hfp
      injection hfp with h'
      rw [← h']
      exact div_nonneg (hd _ _) (le_of_lt htd)
    · rw [if_neg htd] at hfp
      cases hfp
  refine ⟨?_, by rw [hsingle], by rw [hsingle], by rw [hsingle], ?_, ?_⟩
  · rw [computeStats_spec]
    simp [pairTotal, consecPairs, instSpeeds, meanOrZero, round2_zero]
  · rw [computeStats_spec]
    apply round2_nonneg
    apply List.sum_nonneg
    intro x hx
    rcases List.mem_map.mp hx with ⟨p, _, he⟩
    rw [← he]
    exact hd p.1 p.2
  · rw [computeStats_spec]
    apply round2_nonneg
    unfold meanOrZero
    split
    · exact div_nonneg (List.sum_nonneg hsp) (by positivity)
    · exact le_refl 0

/-- C6 witness: concrete empty, single-fix and two-fix summaries with the
zero distance function. -/
theorem summary_zero_and_nonneg_witness :
    computeStats (fun _ _ => (0 : Rat)) [] =
      { totalDistance := 0, totalTime := 0, averageSpeed := 0, locationsRecorded := 0 }
    ∧ (computeStats (fun _ _ => (0 : Rat)) [⟨0, 0, 10, 0⟩]).totalDistance = 0
    ∧ (computeStats (fun _ _ => (0 : Rat)) [⟨0, 0, 10, 0⟩]).totalTime = 0
    ∧ (computeStats (fun _ _ => (0 : Rat)) [⟨0, 0, 10, 0⟩]).averageSpeed = 0
    ∧ 0 ≤ (computeStats (fun _ _ => (0 : Rat))
        [⟨0, 0, 10, 0⟩, ⟨1, 1, 10, 60000⟩]).totalDistance
    ∧ 0 ≤ (computeStats (fun _ _ => (0 : Rat))
        [⟨0, 0, 10, 0⟩, ⟨1, 1, 10, 60000⟩]).averageSpeed :=
  summary_zero_and_nonneg (fun _ _ => 0) ⟨0, 0, 10, 0⟩
    [⟨0, 0, 10, 0⟩, ⟨1, 1, 10, 60000⟩] (fun _ _ => le_refl 0)

/-! ## C3: no duplicate zone ids in any reachable presence state -/

theorem nodupKeys_iff (l : List String) : nodupKeys l = true ↔ l.Nodup := by
  induction l with
  | nil => simp [nodupKeys]
  | cons x xs ih =>
    simp [nodupKeys, List.nodup_cons, ih, Bool.and_eq_true, List.any_eq_true, beq_iff_eq]

/-- The invariant: a status lists each zone id at most once. -/
def statusOk (st : GeofenceStatus) : Prop :=
  (st.currentGeofences.map (fun c => c.geofenceId)).Nodup

theorem enterStatus_ok {st : GeofenceStatus} {g : Geofence} {now : Clock}
    {loc : LocationData} (h : statusOk st) (hnot : wasIn st g.id = false) :
    statusOk (enterStatus st g now loc) := by
  unfold statusOk enterStatus
  simp only [List.map_append, List.map_cons, List.map_nil]
  rw [List.nodup_append]
  refine ⟨h, List.nodup_singleton _, ?_⟩
  intro a ha hb
  simp only [List.mem_singleton] at hb
  subst hb
  rcases List.mem_map.mp ha with ⟨c, hc, hcid⟩
  have hne : ∀ c ∈ st.currentGeofences, ¬ c.geofenceId = g.id := by
    simpa [wasIn, List.any_eq_false] using hnot
  exact hne c hc hcid

theorem exitStatus_ok {st : GeofenceStatus} {g : Geofence} {loc : LocationData}
    (h : statusOk st) : statusOk (exitStatus st g loc) := by
  unfold statusOk exitStatus
  exact List.Nodup.sublist (List.Sublist.map _ (List.filter_sublist _)) h

theorem processZones_ok (inside : LocationData → Geofence → Bool) (now : Clock)
    (loc : LocationData) (uid : String) :
    ∀ (gs : List Geofence) (st : GeofenceStatus), statusOk st →
      statusOk (processZones inside now loc uid gs st).2 := by
  intro gs
  induction gs with
  | nil =>
    intro st h
    simpa [processZones] using h
  | cons g rest ih =>
    intro st h
    rw [processZones]
    split
    · rename_i hcond
      have hnot : wasIn st g.id = false := by
        have hc2 := hcond
        rw [Bool.and_eq_true] at hc2
        simpa using hc2.2
      simpa [withEvent] using ih _ (enterStatus_ok h hnot)
    · split
      · simpa [withEvent] using ih _ (exitStatus_ok h)
      · exact ih _ h

theorem mapGet_some_mem {m : StatusMap} {k : String} {v : GeofenceStatus}
    (h : mapGet m k = some v) : ∃ p ∈ m, p.2 = v := by
  induction m with
  | nil => simp [mapGet] at h
  | cons q rest ih =>
    rw [mapGet] at h
    split at h
    · injection h with h'
      exact ⟨q, List.mem_cons_self _ _, h'⟩
    · rcases ih h with ⟨p, hp, he⟩
      exact ⟨p, List.mem_cons_of_mem _ hp, he⟩

theorem check_ok (inside : LocationData → Geofence → Bool) (now : Clock)
    (gs : List Geofence) (m : StatusMap) (loc : LocationData) (uid : String)
    (h : ∀ p ∈ m, statusOk p.2) :
    ∀ p ∈ (checkGeofenceEntry inside now gs m loc uid).2, statusOk p.2 := by
  intro p hp
  rw [checkGeofenceEntry_snd] at hp
  rcases mem_mapSet hp with h1 | h1
  · rw [h1]
    apply processZones_ok
    cases hg : mapGet m uid with
    | none => simp [statusOk]
    | some st =>
      simp only [Option.getD_some]
      obtain ⟨q, hq, he⟩ := mapGet_some_mem hg
      rw [← he]
      exact h q hq
  · exact h p h1

theorem purge_ok (m : StatusMap) (id : String) (h : ∀ p ∈ m, statusOk p.2) :
    ∀ p ∈ purgeStatus m id, statusOk p.2 := by
  intro p hp
  rcases List.mem_map.mp hp with ⟨q, hq, he⟩
  rw [← he]
  simp only
  exact List.Nodup.sublist (List.Sublist.map _ (List.filter_sublist _)) (h q hq)

/-- C3: in every presence state reachable by any interleaving of
`checkGeofenceEntry` and `deleteGeofence` purges from the lazily created
empty state, every subject's `currentGeofences` lists each zone id at most
once. -/
theorem currentZones_nodup (m : StatusMap) (h : ReachableStatus m) :
    (m.all (fun p => nodupKeys (p.2.currentGeofences.map (fun c => c.geofenceId)))) = true := by
  have inv : ∀ p ∈ m, statusOk p.2 := by
    induction h with
    | init =>
      intro p hp
      simp at hp
    | check inside now gs loc uid _ ih => exact check_ok inside now gs _ loc uid ih
    | del id _ ih => exact purge_ok _ id ih
  rw [List.all_eq_true]
  intro p hp
  show nodupKeys (p.2.currentGeofences.map (fun c => c.geofenceId)) = true
  rw [nodupKeys_iff]
  exact inv p hp

/-- C3 witness: the state reached by one concrete `checkGeofenceEntry` call
from the empty map. -/
theorem currentZones_nodup_witness :
    (((checkGeofenceEntry (fun _ _ => true) ⟨"mon", "09:00"⟩ [⟨"z1", true, none⟩]
        [] ⟨0, 0, 10, 0⟩ "u").2).all
      (fun p => nodupKeys (p.2.currentGeofences.map (fun c => c.geofenceId)))) = true :=
  currentZones_nodup _
    (ReachableStatus.check (fun _ _ => true) ⟨"mon", "09:00"⟩ [⟨"z1", true, none⟩]
      ⟨0, 0, 10, 0⟩ "u" ReachableStatus.init)

/-! ## C1: entry/exit pairing -/

/-- C1: feeding a subject the fix sequence [inside, inside, outside] for a
single active zone yields exactly one ENTER (on the first fix), no event on
the second fix while the subject is already present, and exactly one EXIT
(on the third fix); no EXIT precedes the ENTER. -/
theorem enter_exit_pairing (inside : LocationData → Geofence → Bool)
    (now1 now2 now3 : Clock) (g : Geofence) (m0 : StatusMap)
    (f1 f2 f3 : LocationData) (uid : String)
    (h1 : inside f1 g = true) (h2 : inside f2 g = true) (h3 : inside f3 g = false)
    (hm0 : mapGet m0 uid = none) :
    ((checkGeofenceEntry inside now1 [g] m0 f1 uid).1.map
        (fun e => (e.eventType, e.geofenceId)) = [(GeofenceEventType.enter, g.id)])
    ∧ ((checkGeofenceEntry inside now2 [g]
          (checkGeofenceEntry inside now1 [g] m0 f1 uid).2 f2 uid).1 = [])
    ∧ ((checkGeofenceEntry inside now3 [g]
          (checkGeofenceEntry inside now2 [g]
            (checkGeofenceEntry inside now1 [g] m0 f1 uid).2 f2 uid).2 f3 uid).1.map
        (fun e => (e.eventType, e.geofenceId)) = [(GeofenceEventType.exit, g.id)]) := by
  have hp1 : processZones inside now1 f1 uid [g]
      { userId := uid, currentGeofences := [], lastGeofenceExit := none } =
      ([enterEvent g now1 f1 uid],
       ⟨uid, [⟨g.id, f1.timestamp, isAuthorizedAccess g now1⟩], none⟩) := by
    simp [processZones, withEvent, wasIn, enterStatus, h1]
  have hc1 : checkGeofenceEntry inside now1 [g] m0 f1 uid =
      ([enterEvent g now1 f1 uid],
       mapSet m0 uid ⟨uid, [⟨g.id, f1.timestamp, isAuthorizedAccess g now1⟩], none⟩) := by
    simp [checkGeofenceEntry, hm0, hp1]
  have hget1 : mapGet (mapSet m0 uid
      ⟨uid, [⟨g.id, f1.timestamp, isAuthorizedAccess g now1⟩], none⟩) uid =
      some ⟨uid, [⟨g.id, f1.timestamp, isAuthorizedAccess g now1⟩], none⟩ :=
    mapGet_mapSet_self m0 uid _
  have hp2 : processZones inside now2 f2 uid [g]
      ⟨uid, [⟨g.id, f1.timestamp, isAuthorizedAccess g now1⟩], none⟩ =
      ([], ⟨uid, [⟨g.id, f1.timestamp, isAuthorizedAccess g now1⟩], none⟩) := by
    simp [processZones, wasIn, h2]
  have hc2 : checkGeofenceEntry inside now2 [g]
      (mapSet m0 uid ⟨uid, [⟨g.id, f1.timestamp, isAuthorizedAccess g now1⟩], none⟩)
      f2 uid =
      ([], mapSet
        (mapSet m0 uid ⟨uid, [⟨g.id, f1.timestamp, isAuthorizedAccess g now1⟩], none⟩)
        uid ⟨uid, [⟨g.id, f1.timestamp, isAuthorizedAccess g now1⟩], none⟩) := by
    simp [checkGeofenceEntry, hget1, hp2]
  have hget2 : mapGet (mapSet
      (mapSet m0 uid ⟨uid, [⟨g.id, f1.timestamp, isAuthorizedAccess g now1⟩], none⟩)
      uid ⟨uid, [⟨g.id, f1.timestamp, isAuthorizedAccess g now1⟩], none⟩) uid =
      some ⟨uid, [⟨g.id, f1.timestamp, isAuthorizedAccess g now1⟩], none⟩ :=
    mapGet_mapSet_self _ uid _
  have hp3 : (processZones inside now3 f3 uid [g]
      ⟨uid, [⟨g.id, f1.timestamp, isAuthorizedAccess g now1⟩], none⟩).1 =
      [exitEvent g now3 f3 uid (Int.fdiv (f3.timestamp - f1.timestamp) 60000)] := by
    simp [processZones, withEvent, wasIn, h3, exitDuration, List.find?_cons]
  refine ⟨?_, ?_, ?_⟩
  · rw [hc1]
    simp [enterEvent]
  · rw [hc1]
    simp only
    rw [hc2]
  · rw [hc1]
    simp only
    rw [hc2]
    simp only
    rw [checkGeofenceEntry_fst, hget2]
    simp only [Option.getD_some]
    rw [hp3]
    simp [exitEvent]

/-- C1 witness: a concrete subject entering and leaving zone "z1", with a
containment oracle that places the first two fixes inside. -/
theorem enter_exit_pairing_witness :
    ((checkGeofenceEntry (fun loc _ => decide (loc.timestamp < 100)) ⟨"mon", "09:00"⟩
        [⟨"z1", true, none⟩] [] ⟨0, 0, 10, 0⟩ "u").1.map
        (fun e => (e.eventType, e.geofenceId)) = [(GeofenceEventType.enter, "z1")])
    ∧ ((checkGeofenceEntry (fun loc _ => decide (loc.timestamp < 100)) ⟨"mon", "09:00"⟩
          [⟨"z1", true, none⟩]
          (checkGeofenceEntry (fun loc _ => decide (loc.timestamp < 100)) ⟨"mon", "09:00"⟩
            [⟨"z1", true, none⟩] [] ⟨0, 0, 10, 0⟩ "u").2 ⟨0, 0, 10, 50⟩ "u").1 = [])
    ∧ ((checkGeofenceEntry (fun loc _ => decide (loc.timestamp < 100)) ⟨"mon", "09:00"⟩
          [⟨"z1", true, none⟩]
          (checkGeofenceEntry (fun loc _ => decide (loc.timestamp < 100)) ⟨"mon", "09:00"⟩
            [⟨"z1", true, none⟩]
            (checkGeofenceEntry (fun loc _ => decide (loc.timestamp < 100)) ⟨"mon", "09:00"⟩
              [⟨"z1", true, none⟩] [] ⟨0, 0, 10, 0⟩ "u").2 ⟨0, 0, 10, 50⟩ "u").2
          ⟨0, 0, 10, 125000⟩ "u").1.map
        (fun e => (e.eventType, e.geofenceId)) = [(GeofenceEventType.exit, "z1")]) :=
  enter_exit_pairing (fun loc _ => decide (loc.timestamp < 100))
    ⟨"mon", "09:00"⟩ ⟨"mon", "09:00"⟩ ⟨"mon", "09:00"⟩ ⟨"z1", true, none⟩ []
    ⟨0, 0, 10, 0⟩ ⟨0, 0, 10, 50⟩ ⟨0, 0, 10, 125000⟩ "u"
    (by decide) (by decide) (by decide) rfl

/-! ## C2: exit duration -/

/-- C2: every EXIT event's duration is the millisecond difference between
the exit fix's timestamp and the stored entry timestamp, floor-divided into
whole minutes; the `entryInfo ? … : 0` fallback reports 0 when no entry
record exists, and the event is emitted whenever the subject was recorded
present. -/
theorem exit_duration_floored (inside : LocationData → Geofence → Bool)
    (now : Clock) (g : Geofence) (uid : String) (f : LocationData)
    (m : StatusMap) (st0 : GeofenceStatus) (entry : CurrentGeofence)
    (hm : mapGet m uid = some st0)
    (hfind : st0.currentGeofences.find? (fun c => c.geofenceId == g.id) = some entry)
    (hout : inside f g = false) :
    ((checkGeofenceEntry inside now [g] m f uid).1.map
        (fun e => (e.eventType, e.geofenceId, e.duration)) =
      [(GeofenceEventType.exit, g.id,
        some (Int.fdiv (f.timestamp - entry.entryTime) 60000))])
    ∧ exitDuration none f.timestamp = 0
    ∧ exitDuration (some entry) f.timestamp =
        Int.fdiv (f.timestamp - entry.entryTime) 60000 := by
  have hwas : wasIn st0 g.id = true := by
    unfold wasIn
    rw [List.any_eq_true]
    have hmem := List.mem_of_find?_eq_some hfind
    have hps := List.find?_some hfind
    exact ⟨entry, hmem, hps⟩
  have hp : (processZones inside now f uid [g] st0).1 =
      [exitEvent g now f uid (Int.fdiv (f.timestamp - entry.entryTime) 60000)] := by
    simp [processZones, withEvent, hout, hwas, hfind, exitDuration]
  refine ⟨?_, rfl, rfl⟩
  rw [checkGeofenceEntry_fst, hm]
  simp only [Option.getD_some]
  rw [hp]
  simp [exitEvent]

/-- C2 witness: entry recorded at t = 0 ms, exit fix at t = 125000 ms
(125 s) gives an EXIT with duration 2 minutes, floor(125/60). -/
theorem exit_duration_floored_witness :
    ((checkGeofenceEntry (fun _ _ => false) ⟨"mon", "09:00"⟩ [⟨"z1", true, none⟩]
        [("u", ⟨"u", [⟨"z1", 0, true⟩], none⟩)] ⟨0, 0, 10, 125000⟩ "u").1.map
        (fun e => (e.eventType, e.geofenceId, e.duration)) =
      [(GeofenceEventType.exit, "z1", some 2)])
    ∧ exitDuration none 125000 = 0
    ∧ exitDuration (some ⟨"z1", 0, true⟩) 125000 = 2 := by
  have h := exit_duration_floored (fun _ _ => false) ⟨"mon", "09:00"⟩
    ⟨"z1", true, none⟩ "u" ⟨0, 0, 10, 125000⟩
    [("u", ⟨"u", [⟨"z1", 0, true⟩], none⟩)] ⟨"u", [⟨"z1", 0, true⟩], none⟩
    ⟨"z1", 0, true⟩ (by decide) (by decide) rfl
  refine ⟨?_, h.2.1, ?_⟩
  · rw [h.1]
    decide
  · rw [h.2.2]
    decide

end GeoTrack
